import Mathlib

/-!
Shallow embedding of the `Visitor` traversal engine of `cargo-check-external-types`
(`src/visitor.rs`), together with theorems checking the design specification
against it.

The rustdoc JSON schema (`rustdoc_types`) is embedded as inductive types carrying
exactly the fields the visitor reads.  `HashMap`s are embedded as association
lists.  The `anyhow` errors and the abort macros of the source (`panic!`,
`unreachable!`, `unimplemented!`) are embedded as a `Fatal` error type in
`Except`.  The recursion of the visitor (which in Rust walks an arbitrary,
possibly cyclic, id-indexed graph) is bounded by an explicit `fuel` parameter;
running out of fuel is a distinguished `Fatal.fuelExhausted` outcome that the
Rust source has no counterpart for.  Early returns that the source performs
before any recursion are placed before the fuel check, so that they hold for
every fuel value.

Supporting modules of the crate that the visitor uses (`config.rs`, `error.rs`,
`path.rs`) are not part of the traversal engine source; they are modelled from
the specification, as noted on each such definition.
-/

namespace CheckExternalTypes

/-- Rustdoc item identifier (`rustdoc_types::Id`, a newtype over `String`). -/
abbrev Id := String

/-- Source span attached to items (`rustdoc_types::Span`); only carried through
into reported errors, never inspected by the visitor. -/
structure Span where
  filename : String
  begin_ : Nat × Nat
  end_ : Nat × Nat
deriving DecidableEq

/-- Item visibility marker (`rustdoc_types::Visibility`). -/
inductive Visibility where
  | public
  | default
  | crate
  | restricted (parent : Id) (path : String)
deriving DecidableEq

/-- Trait bound modifier (`rustdoc_types::TraitBoundModifier`); never read by
the visitor. -/
inductive TraitBoundModifier where
  | none
  | maybe
  | maybeConst
deriving DecidableEq

mutual
/-- Embeds `rustdoc_types::Type` (named `Ty` because `Type` is reserved in Lean). -/
inductive Ty where
  | resolvedPath (name : String) (id : Id) (args : Option GenericArgs)
      (param_names : List GenericBound)
  | generic (name : String)
  | primitive (name : String)
  | functionPointer (decl : FnDecl) (generic_params : List GenericParamDef)
  | tuple (types : List Ty)
  | slice (type_ : Ty)
  | array (type_ : Ty) (len : String)
  | implTrait (bounds : List GenericBound)
  | infer
  | rawPointer (mutable : Bool) (type_ : Ty)
  | borrowedRef (lifetime : Option String) (mutable : Bool) (type_ : Ty)
  | qualifiedPath (name : String) (args : GenericArgs) (self_type : Ty) (trait_ : Ty)

/-- Embeds `rustdoc_types::FnDecl`. -/
inductive FnDecl where
  | mk (inputs : List (String × Ty)) (output : Option Ty) (c_variadic : Bool)

/-- Embeds `rustdoc_types::GenericArgs`. -/
inductive GenericArgs where
  | angleBracketed (args : List GenericArg) (bindings : List TypeBinding)
  | parenthesized (inputs : List Ty) (output : Option Ty)

/-- Embeds `rustdoc_types::GenericArg`. -/
inductive GenericArg where
  | lifetime (name : String)
  | type (type_ : Ty)
  | const (c : Constant)
  | infer

/-- Embeds `rustdoc_types::TypeBinding`. -/
inductive TypeBinding where
  | mk (name : String) (binding : TypeBindingKind)

/-- Embeds `rustdoc_types::TypeBindingKind`. -/
inductive TypeBindingKind where
  | equality (term : Term)
  | constraint (bounds : List GenericBound)

/-- Embeds `rustdoc_types::Term`. -/
inductive Term where
  | type (type_ : Ty)
  | constant (c : Constant)

/-- Embeds `rustdoc_types::Constant`; the visitor only reads the `type_` field. -/
inductive Constant where
  | mk (type_ : Ty) (expr : String)

/-- Embeds `rustdoc_types::GenericBound`. -/
inductive GenericBound where
  | traitBound (trait_ : Ty) (generic_params : List GenericParamDef)
      (modifier : TraitBoundModifier)
  | outlives (lifetime : String)

/-- Embeds `rustdoc_types::GenericParamDef`. -/
inductive GenericParamDef where
  | mk (name : String) (kind : GenericParamDefKind)

/-- Embeds `rustdoc_types::GenericParamDefKind`. -/
inductive GenericParamDefKind where
  | lifetime (outlives : List String)
  | type (bounds : List GenericBound) (default : Option Ty) (synthetic : Bool)
  | const (type_ : Ty) (default : Option String)
end

/-- Projection: the argument list of a function declaration. -/
def FnDecl.inputs : FnDecl → List (String × Ty)
  | .mk inputs _ _ => inputs

/-- Projection: the return type of a function declaration. -/
def FnDecl.output : FnDecl → Option Ty
  | .mk _ output _ => output

/-- Projection: the type of a constant. -/
def Constant.type_ : Constant → Ty
  | .mk t _ => t

/-- Projection: the kind of a type binding. -/
def TypeBinding.binding : TypeBinding → TypeBindingKind
  | .mk _ b => b

/-- Projection: the kind of a generic parameter definition. -/
def GenericParamDef.kind : GenericParamDef → GenericParamDefKind
  | .mk _ k => k

/-- Embeds `rustdoc_types::WherePredicate`. -/
inductive WherePredicate where
  | boundPredicate (type_ : Ty) (bounds : List GenericBound)
      (generic_params : List GenericParamDef)
  | regionPredicate (lifetime : String) (bounds : List GenericBound)
  | eqPredicate (lhs : Ty) (rhs : Term)

/-- Embeds `rustdoc_types::Generics`. -/
structure Generics where
  params : List GenericParamDef
  where_predicates : List WherePredicate

/-- Embeds `rustdoc_types::Variant`. -/
inductive Variant where
  | plain
  | tuple (types : List Ty)
  | struct (fields : List Id)

/-- Embeds `rustdoc_types::Module` (fields read by the visitor). -/
structure Module where
  is_crate : Bool
  items : List Id

/-- Embeds `rustdoc_types::Import`. -/
structure Import where
  source : String
  name : String
  id : Option Id
  glob : Bool

/-- Embeds `rustdoc_types::Struct` (fields read by the visitor). -/
structure Struct where
  generics : Generics
  fields : List Id
  impls : List Id

/-- Embeds `rustdoc_types::Union` (fields read by the visitor). -/
structure Union where
  generics : Generics
  fields : List Id
  impls : List Id

/-- Embeds `rustdoc_types::Enum` (fields read by the visitor). -/
structure Enum where
  generics : Generics
  variants : List Id
  impls : List Id

/-- Embeds `rustdoc_types::Trait` (fields read by the visitor). -/
structure Trait where
  generics : Generics
  bounds : List GenericBound
  items : List Id

/-- Embeds `rustdoc_types::Impl` (fields read by the visitor). -/
structure Impl where
  generics : Generics
  trait_ : Option Ty
  items : List Id
  blanket_impl : Option Ty

/-- Embeds `rustdoc_types::Function` (fields read by the visitor). -/
structure Function where
  decl : FnDecl
  generics : Generics

/-- Embeds `rustdoc_types::Method` (fields read by the visitor). -/
structure Method where
  decl : FnDecl
  generics : Generics

/-- Embeds `rustdoc_types::Typedef`. -/
structure Typedef where
  type_ : Ty
  generics : Generics

/-- Embeds `rustdoc_types::Static` (fields read by the visitor). -/
structure Static where
  type_ : Ty
  mutable : Bool
  expr : String

/-- Kind tag of a procedural macro declaration (`rustdoc_types::MacroKind`). -/
inductive MacroKind where
  | bang
  | attr
  | derive
deriving DecidableEq

/-- Embeds `rustdoc_types::ProcMacro`; never read by the visitor. -/
structure ProcMacroInfo where
  kind : MacroKind
  helpers : List String

/-- Embeds `rustdoc_types::ItemEnum`: the kind-specific payload of an item.
Payloads of `OpaqueTy` and `TraitAlias` are unread by the visitor (matched with
a wildcard in the source) and are omitted. -/
inductive ItemEnum where
  | module (m : Module)
  | externCrate (name : String) (rename : Option String)
  | importItem (i : Import)
  | union (u : Union)
  | struct (s : Struct)
  | structField (type_ : Ty)
  | enum (e : Enum)
  | variant (v : Variant)
  | function (f : Function)
  | trait (t : Trait)
  | traitAlias
  | method (m : Method)
  | impl (i : Impl)
  | typedef (t : Typedef)
  | opaqueTy
  | constant (c : Constant)
  | static (s : Static)
  | foreignType
  | macroItem (body : String)
  | procMacroItem (p : ProcMacroInfo)
  | primitiveType (name : String)
  | assocConst (type_ : Ty) (default : Option String)
  | assocType (bounds : List GenericBound) (default : Option Ty) (generics : Generics)

/-- Embeds `rustdoc_types::Item` (fields read by the visitor). -/
structure Item where
  id : Id
  crate_id : Nat
  name : Option String
  span : Option Span
  visibility : Visibility
  inner : ItemEnum

/-- Embeds `rustdoc_types::ItemSummary` (fields read by the visitor). -/
structure ItemSummary where
  crate_id : Nat
  path : List String

/-- Embeds `rustdoc_types::Crate` (fields read by the visitor); the `HashMap`
index and summary map are embedded as association lists. -/
structure Crate where
  root : Id
  index : List (Id × Item)
  paths : List (Id × ItemSummary)

/-- Modelled from the spec: the kind tag of one path component
(`crate::path::ComponentType`); the variants are those pushed by the visitor. -/
inductive ComponentType where
  | assocConst
  | assocType
  | constant
  | crate
  | enum
  | enumVariant
  | function
  | method
  | module
  | reExport
  | static
  | struct
  | structField
  | trait
  | typeDef
  | union
deriving DecidableEq

/-- Modelled from the spec: one component of the declaration path, a
(kind, name, optional-location) triple (`crate::path` is not part of the
traversal-engine source). -/
structure PathComponent where
  typ : ComponentType
  name : String
  span : Option Span
deriving DecidableEq

/-- Modelled from the spec: the nested declaration path accumulated while the
traversal descends; purely additive, cloned per branch (`crate::path::Path`). -/
structure Path where
  components : List PathComponent
deriving DecidableEq

/-- Modelled from the spec: the path a traversal starts with, holding one
component for the root crate. -/
def Path.new (name : String) : Path :=
  ⟨[⟨ComponentType.crate, name, none⟩]⟩

/-- Modelled from the spec: push a component named after an item onto the path
(the name and span are taken from the item). -/
def Path.push (p : Path) (typ : ComponentType) (item : Item) : Path :=
  ⟨p.components ++ [⟨typ, item.name.getD "", item.span⟩]⟩

/-- Modelled from the spec: push a component with an explicit name and span. -/
def Path.pushRaw (p : Path) (typ : ComponentType) (name : String)
    (span : Option Span) : Path :=
  ⟨p.components ++ [⟨typ, name, span⟩]⟩

/-- Modelled from the spec: the kind tag of the innermost path component, used
by the contextual visibility rules. -/
def Path.lastType (p : Path) : Option ComponentType :=
  p.components.getLast?.map (fun c => c.typ)

/-- Modelled from the spec: the best-available source span, i.e. the span of
the innermost component that carries one. -/
def Path.lastSpan (p : Path) : Option Span :=
  (p.components.reverse.filterMap (fun c => c.span)).head?

/-- Modelled from the spec: the human-readable rendering of the path. -/
def Path.render (p : Path) : String :=
  String.intercalate "::" (p.components.map (fun c => c.name))

/-- Modelled from the spec: the usage-location tag attached to a violation
(`crate::error::ErrorLocation`); the variants are those the visitor uses. -/
inductive ErrorLocation where
  | argumentNamed (name : String)
  | assocType
  | closureInput
  | closureOutput
  | constGeneric
  | constant
  | enumTupleEntry
  | genericArg
  | genericDefaultBinding
  | implementedTrait
  | qualifiedSelfType
  | qualifiedSelfTypeAsTrait
  | reExport
  | returnValue
  | static
  | structField
  | traitBound
  | typeDef
  | whereBound
deriving DecidableEq

/-- Modelled from the spec: one recorded violation
(`crate::error::ValidationError::UnapprovedExternalTypeRef`), carrying the
resolved external name, the usage-location tag, the rendered path, and the
best-available source span. -/
structure ValidationError where
  typeName : String
  location : ErrorLocation
  path : String
  span : Option Span
deriving DecidableEq

/-- Modelled from the spec: the constructor the visitor calls to record an
unapproved external type reference. -/
def ValidationError.unapprovedExternalTypeRef (typeName : String)
    (location : ErrorLocation) (path : String) (span : Option Span) :
    ValidationError :=
  ⟨typeName, location, path, span⟩

/-- Modelled from the spec: the policy (`crate::config::Config`), consulted as
a pure predicate `allows_type(root_crate_name, type_name)`. -/
structure Config where
  allowsType : String → String → Bool

/-- Fatal outcomes of the traversal: the `anyhow` errors and the aborts
(`panic!` / `unreachable!` / `unimplemented!`) of the source, plus the
fuel-exhaustion artifact of the bounded embedding. -/
inductive Fatal where
  | rootModuleNotFound
  | rootNotFound
  | rootNameMissing
  | missingItem (id : Id)
  | unstableFeature (name : String)
  | brokenReference
  | notAnImpl
  | inferType
  | fuelExhausted
deriving DecidableEq

/-- The visitor state shared through the walk: the set of validation errors,
embedded as a duplicate-free list (the `BTreeSet` of the source, with the
ordered rendering applied on output). -/
abbrev ErrorSet := List ValidationError

/-- Result of one visiting step: either the updated error set or a fatal
outcome. -/
abbrev VisitResult := Except Fatal ErrorSet

/-- Sequencing of fallible visiting steps (the `?` operator of the source). -/
def andThen {α : Type} (r : Except Fatal α) (f : α → VisitResult) : VisitResult :=
  match r with
  | .ok a => f a
  | .error e => .error e

/-- Embeds `Visitor::add_error`: insert a violation into the error set; the
`BTreeSet` insert is embedded as an append guarded by membership. -/
def addError (error : ValidationError) (s : ErrorSet) : ErrorSet :=
  if error ∈ s then s else s ++ [error]

/-- Embeds the `Visitor` struct: the config, the root crate id and name, and
the id-indexed item and summary maps. -/
structure Visitor where
  config : Config
  rootCrateId : Nat
  rootCrateName : String
  index : List (Id × Item)
  paths : List (Id × ItemSummary)

/-- Embeds `Visitor::is_public`: whether an item is effectively public, in some
cases determined from the innermost component of the surrounding path. -/
def isPublic (path : Path) (item : Item) : Bool :=
  match item.visibility with
  | .public => true
  | .default =>
    match item.inner, path.lastType with
    | .variant _, some .enum => true
    | .structField _, some .enumVariant => true
    | _, some .trait => true
    | _, _ => false
  | _ => false

/-- Embeds `Visitor::item`: look an id up in the index, a fatal fault if it is
absent. -/
def Visitor.item (v : Visitor) (id : Id) : Except Fatal Item :=
  match v.index.lookup id with
  | some it => .ok it
  | none => .error (.missingItem id)

/-- Embeds `Visitor::item_summary`: look an id up in the summary map. -/
def Visitor.itemSummary (v : Visitor) (id : Id) : Option ItemSummary :=
  v.paths.lookup id

/-- Embeds `Visitor::type_name`: the canonical dotted name of an item, when its
summary is present. -/
def Visitor.typeName (v : Visitor) (id : Id) : Option String :=
  (v.itemSummary id).map (fun summary => String.intercalate "::" summary.path)

/-- Embeds `str::starts_with` as a character-list prefix test. -/
def strStartsWith (s pre : String) : Bool :=
  pre.data.isPrefixOf s.data

/-- Embeds `Visitor::in_root_crate`: whether an id belongs to the root crate,
decided by the `"<root_crate_id>:"` prefix of the id string (`check_external`
inlines the same prefix test). -/
def Visitor.inRootCrate (v : Visitor) (id : Id) : Bool :=
  strStartsWith id (toString v.rootCrateId ++ ":")

/-- Embeds `Visitor::check_external`: resolve the canonical name of a
referenced id; if it resolves and the config disallows it, record a violation;
if it does not resolve, accept silently when the id belongs to the root crate
and abort (`unreachable!`) otherwise. -/
def Visitor.checkExternal (v : Visitor) (path : Path) (what : ErrorLocation)
    (id : Id) (s : ErrorSet) : VisitResult :=
  match v.typeName id with
  | some typeName =>
    if !(v.config.allowsType v.rootCrateName typeName) then
      .ok (addError
        (ValidationError.unapprovedExternalTypeRef typeName what
          path.render path.lastSpan) s)
    else
      .ok s
  | none =>
    if !(v.inRootCrate id) then .error .brokenReference
    else .ok s

/-- Embeds the `VisibilityCheck` mode of the visitor. -/
inductive VisibilityCheck where
  | default
  | assumePublic
deriving DecidableEq, BEq

mutual

/-- Embeds `Visitor::visit_item`: the kind dispatch of the traversal.  The
visibility gate and the arms that do not recurse (the unstable-feature aborts
and the no-op kinds) are placed before the fuel check, exactly as they precede
all recursion in the source. -/
def visitItem (v : Visitor) (fuel : Nat) (path : Path) (item : Item)
    (visibilityCheck : VisibilityCheck) (s : ErrorSet) : VisitResult :=
  if visibilityCheck == VisibilityCheck.default && !(isPublic path item) then
    .ok s
  else
    match item.inner with
    | .foreignType => .error (.unstableFeature "extern_types")
    | .opaqueTy => .error (.unstableFeature "type_alias_impl_trait")
    | .traitAlias => .error (.unstableFeature "trait_alias")
    | .externCrate _ _ => .ok s
    | .impl _ => .ok s
    | .macroItem _ => .ok s
    | .primitiveType _ => .ok s
    | .procMacroItem _ => .ok s
    | .assocConst type_ _ =>
      match fuel with
      | 0 => .error .fuelExhausted
      | n+1 => visitType v n (path.push .assocConst item) .structField type_ s
    | .assocType bounds default generics =>
      match fuel with
      | 0 => .error .fuelExhausted
      | n+1 =>
        let path := path.push .assocType item
        andThen
          (match default with
           | some typ => visitType v n path .assocType typ s
           | none => .ok s) fun s1 =>
        andThen (visitGenericBounds v n path bounds s1) fun s2 =>
        visitGenerics v n path generics s2
    | .constant c =>
      match fuel with
      | 0 => .error .fuelExhausted
      | n+1 => visitType v n (path.push .constant item) .constant c.type_ s
    | .enum enm =>
      match fuel with
      | 0 => .error .fuelExhausted
      | n+1 =>
        let path := path.push .enum item
        andThen (visitGenerics v n path enm.generics s) fun s1 =>
        andThen (visitImplsList v n path enm.impls s1) fun s2 =>
        visitItemsDefault v n path enm.variants s2
    | .function f =>
      match fuel with
      | 0 => .error .fuelExhausted
      | n+1 =>
        let path := path.push .function item
        andThen (visitFnDecl v n path f.decl s) fun s1 =>
        visitGenerics v n path f.generics s1
    | .importItem imp =>
      match fuel with
      | 0 => .error .fuelExhausted
      | n+1 =>
        match imp.id with
        | some targetId =>
          andThen
            (if v.inRootCrate targetId then
              andThen (v.item targetId) fun target =>
                visitItem v n path target .assumePublic s
            else .ok s) fun s1 =>
          v.checkExternal (path.pushRaw .reExport imp.name item.span) .reExport
            targetId s1
        | none => .ok s
    | .method m =>
      match fuel with
      | 0 => .error .fuelExhausted
      | n+1 =>
        let path := path.push .method item
        andThen (visitFnDecl v n path m.decl s) fun s1 =>
        visitGenerics v n path m.generics s1
    | .module m =>
      match fuel with
      | 0 => .error .fuelExhausted
      | n+1 =>
        let path := if m.is_crate then path else path.push .module item
        visitModuleItems v n path m.items s
    | .static sttc =>
      match fuel with
      | 0 => .error .fuelExhausted
      | n+1 => visitType v n (path.push .static item) .static sttc.type_ s
    | .struct strct =>
      match fuel with
      | 0 => .error .fuelExhausted
      | n+1 => visitStruct v n (path.push .struct item) strct s
    | .structField typ =>
      match fuel with
      | 0 => .error .fuelExhausted
      | n+1 => visitType v n (path.push .structField item) .structField typ s
    | .trait trt =>
      match fuel with
      | 0 => .error .fuelExhausted
      | n+1 => visitTrait v n (path.push .trait item) trt s
    | .typedef typedef =>
      match fuel with
      | 0 => .error .fuelExhausted
      | n+1 =>
        let path := path.push .typeDef item
        andThen (visitType v n path .typeDef typedef.type_ s) fun s1 =>
        visitGenerics v n path typedef.generics s1
    | .union unn =>
      match fuel with
      | 0 => .error .fuelExhausted
      | n+1 => visitUnion v n (path.push .union item) unn s
    | .variant variant =>
      match fuel with
      | 0 => .error .fuelExhausted
      | n+1 => visitVariant v n (path.push .enumVariant item) variant s
termination_by fuel

/-- Embeds the loops of the source that look each id up in the index and visit
the item with the default visibility check (struct/union fields, enum variants,
trait items, impl items). -/
def visitItemsDefault (v : Visitor) (fuel : Nat) (path : Path) (ids : List Id)
    (s : ErrorSet) : VisitResult :=
  match fuel with
  | 0 => .error .fuelExhausted
  | n+1 =>
    match ids with
    | [] => .ok s
    | id :: rest =>
      andThen (v.item id) fun it =>
      andThen (visitItem v n path it .default s) fun s1 =>
      visitItemsDefault v n path rest s1
termination_by fuel

/-- Embeds the member loop of the `ItemEnum::Module` arm: members whose
`crate_id` differs from the root crate id are skipped (re-export shadow copies
are examined through the `Import` item instead). -/
def visitModuleItems (v : Visitor) (fuel : Nat) (path : Path) (ids : List Id)
    (s : ErrorSet) : VisitResult :=
  match fuel with
  | 0 => .error .fuelExhausted
  | n+1 =>
    match ids with
    | [] => .ok s
    | id :: rest =>
      andThen (v.item id) fun moduleItem =>
      andThen
        (if moduleItem.crate_id == v.rootCrateId then
          visitItem v n path moduleItem .default s
        else .ok s) fun s1 =>
      visitModuleItems v n path rest s1
termination_by fuel

/-- Embeds the `impls` loops of the source: look each id up and visit it as an
implementation block. -/
def visitImplsList (v : Visitor) (fuel : Nat) (path : Path) (ids : List Id)
    (s : ErrorSet) : VisitResult :=
  match fuel with
  | 0 => .error .fuelExhausted
  | n+1 =>
    match ids with
    | [] => .ok s
    | id :: rest =>
      andThen (v.item id) fun it =>
      andThen (visitImpl v n path it s) fun s1 =>
      visitImplsList v n path rest s1
termination_by fuel

/-- Embeds `Visitor::visit_struct`: generics, then fields, then impls. -/
def visitStruct (v : Visitor) (fuel : Nat) (path : Path) (strct : Struct)
    (s : ErrorSet) : VisitResult :=
  match fuel with
  | 0 => .error .fuelExhausted
  | n+1 =>
    andThen (visitGenerics v n path strct.generics s) fun s1 =>
    andThen (visitItemsDefault v n path strct.fields s1) fun s2 =>
    visitImplsList v n path strct.impls s2
termination_by fuel

/-- Embeds `Visitor::visit_union`: generics, then fields, then impls. -/
def visitUnion (v : Visitor) (fuel : Nat) (path : Path) (unn : Union)
    (s : ErrorSet) : VisitResult :=
  match fuel with
  | 0 => .error .fuelExhausted
  | n+1 =>
    andThen (visitGenerics v n path unn.generics s) fun s1 =>
    andThen (visitItemsDefault v n path unn.fields s1) fun s2 =>
    visitImplsList v n path unn.impls s2
termination_by fuel

/-- Embeds `Visitor::visit_trait`: generics, then supertrait bounds, then
member items. -/
def visitTrait (v : Visitor) (fuel : Nat) (path : Path) (trt : Trait)
    (s : ErrorSet) : VisitResult :=
  match fuel with
  | 0 => .error .fuelExhausted
  | n+1 =>
    andThen (visitGenerics v n path trt.generics s) fun s1 =>
    andThen (visitGenericBounds v n path trt.bounds s1) fun s2 =>
    visitItemsDefault v n path trt.items s2
termination_by fuel

/-- Embeds `Visitor::visit_impl`: a blanket implementation is skipped before
any recursion; otherwise generics, then member items, then the implemented
trait reference.  A non-`Impl` item is the `unreachable!` abort of the
source. -/
def visitImpl (v : Visitor) (fuel : Nat) (path : Path) (item : Item)
    (s : ErrorSet) : VisitResult :=
  match item.inner with
  | .impl imp =>
    if imp.blanket_impl.isSome then .ok s
    else
      match fuel with
      | 0 => .error .fuelExhausted
      | n+1 =>
        andThen (visitGenerics v n path imp.generics s) fun s1 =>
        andThen (visitItemsDefault v n path imp.items s1) fun s2 =>
        match imp.trait_ with
        | some trait_ => visitType v n path .implementedTrait trait_ s2
        | none => .ok s2
  | _ => .error .notAnImpl
termination_by fuel

/-- Embeds `Visitor::visit_fn_decl`: every argument type (skipping a leading
`self` receiver) and the return type. -/
def visitFnDecl (v : Visitor) (fuel : Nat) (path : Path) (decl : FnDecl)
    (s : ErrorSet) : VisitResult :=
  match fuel with
  | 0 => .error .fuelExhausted
  | n+1 =>
    andThen
      (match decl.inputs with
       | [] => .ok s
       | (name, typ) :: rest =>
         andThen
           (if name == "self" then .ok s
            else visitType v n path (.argumentNamed name) typ s) fun s1 =>
         visitFnInputs v n path rest s1) fun s2 =>
    match decl.output with
    | some output => visitType v n path .returnValue output s2
    | none => .ok s2
termination_by fuel

/-- Embeds the argument loop of `visit_fn_decl` past the first argument (where
the `self` receiver skip no longer applies). -/
def visitFnInputs (v : Visitor) (fuel : Nat) (path : Path)
    (inputs : List (String × Ty)) (s : ErrorSet) : VisitResult :=
  match fuel with
  | 0 => .error .fuelExhausted
  | n+1 =>
    match inputs with
    | [] => .ok s
    | (name, typ) :: rest =>
      andThen (visitType v n path (.argumentNamed name) typ s) fun s1 =>
      visitFnInputs v n path rest s1
termination_by fuel

/-- Embeds `Visitor::visit_type`: the type-reference walker.  A resolved path
is handed to the external-reference checker; composite shapes recurse into
their constituents; `Infer` is the `unimplemented!` abort of the source. -/
def visitType (v : Visitor) (fuel : Nat) (path : Path) (what : ErrorLocation)
    (typ : Ty) (s : ErrorSet) : VisitResult :=
  match fuel with
  | 0 => .error .fuelExhausted
  | n+1 =>
    match typ with
    | .resolvedPath _ id args param_names =>
      andThen (v.checkExternal path what id s) fun s1 =>
      andThen
        (match args with
         | some args => visitGenericArgs v n path args s1
         | none => .ok s1) fun s2 =>
      visitGenericBounds v n path param_names s2
    | .generic _ => .ok s
    | .primitive _ => .ok s
    | .functionPointer decl generic_params =>
      andThen (visitFnDecl v n path decl s) fun s1 =>
      visitGenericParamDefs v n path generic_params s1
    | .tuple types => visitTypeList v n path .enumTupleEntry types s
    | .slice type_ => visitType v n path what type_ s
    | .array type_ _ => visitType v n path what type_ s
    | .implTrait bounds => visitImplTraitBounds v n path what bounds s
    | .infer => .error .inferType
    | .rawPointer _ type_ => visitType v n path what type_ s
    | .borrowedRef _ _ type_ => visitType v n path what type_ s
    | .qualifiedPath _ _ self_type trait_ =>
      andThen (visitType v n path .qualifiedSelfType self_type s) fun s1 =>
      visitType v n path .qualifiedSelfTypeAsTrait trait_ s1
termination_by fuel

/-- Embeds the loops of the source that visit a list of types with one fixed
usage-location tag (tuple members, parenthesized closure inputs). -/
def visitTypeList (v : Visitor) (fuel : Nat) (path : Path)
    (what : ErrorLocation) (types : List Ty) (s : ErrorSet) : VisitResult :=
  match fuel with
  | 0 => .error .fuelExhausted
  | n+1 =>
    match types with
    | [] => .ok s
    | typ :: rest =>
      andThen (visitType v n path what typ s) fun s1 =>
      visitTypeList v n path what rest s1
termination_by fuel

/-- Embeds the bound loop of the `Type::ImplTrait` arm: trait bounds are
visited with the ambient usage-location tag. -/
def visitImplTraitBounds (v : Visitor) (fuel : Nat) (path : Path)
    (what : ErrorLocation) (bounds : List GenericBound) (s : ErrorSet) :
    VisitResult :=
  match fuel with
  | 0 => .error .fuelExhausted
  | n+1 =>
    match bounds with
    | [] => .ok s
    | bound :: rest =>
      andThen
        (match bound with
         | .traitBound trait_ generic_params _ =>
           andThen (visitType v n path what trait_ s) fun s1 =>
           visitGenericParamDefs v n path generic_params s1
         | .outlives _ => .ok s) fun s2 =>
      visitImplTraitBounds v n path what rest s2
termination_by fuel

/-- Embeds `Visitor::visit_generic_args`. -/
def visitGenericArgs (v : Visitor) (fuel : Nat) (path : Path)
    (args : GenericArgs) (s : ErrorSet) : VisitResult :=
  match fuel with
  | 0 => .error .fuelExhausted
  | n+1 =>
    match args with
    | .angleBracketed args bindings =>
      andThen (visitGenericArgList v n path args s) fun s1 =>
      visitTypeBindingList v n path bindings s1
    | .parenthesized inputs output =>
      andThen (visitTypeList v n path .closureInput inputs s) fun s1 =>
      match output with
      | some output => visitType v n path .closureOutput output s1
      | none => .ok s1
termination_by fuel

/-- Embeds the argument loop of the `GenericArgs::AngleBracketed` arm:
lifetimes, consts and inferred arguments are skipped. -/
def visitGenericArgList (v : Visitor) (fuel : Nat) (path : Path)
    (args : List GenericArg) (s : ErrorSet) : VisitResult :=
  match fuel with
  | 0 => .error .fuelExhausted
  | n+1 =>
    match args with
    | [] => .ok s
    | arg :: rest =>
      andThen
        (match arg with
         | .type typ => visitType v n path .genericArg typ s
         | .lifetime _ => .ok s
         | .const _ => .ok s
         | .infer => .ok s) fun s1 =>
      visitGenericArgList v n path rest s1
termination_by fuel

/-- Embeds the binding loop of the `GenericArgs::AngleBracketed` arm. -/
def visitTypeBindingList (v : Visitor) (fuel : Nat) (path : Path)
    (bindings : List TypeBinding) (s : ErrorSet) : VisitResult :=
  match fuel with
  | 0 => .error .fuelExhausted
  | n+1 =>
    match bindings with
    | [] => .ok s
    | binding :: rest =>
      andThen
        (match binding.binding with
         | .equality term =>
           match term with
           | .type typ => visitType v n path .genericDefaultBinding typ s
           | .constant _ => .ok s
         | .constraint bounds => visitGenericBounds v n path bounds s) fun s1 =>
      visitTypeBindingList v n path rest s1
termination_by fuel

/-- Embeds `Visitor::visit_generic_bounds`: trait bounds are visited with the
`TraitBound` usage-location tag; lifetime bounds are skipped. -/
def visitGenericBounds (v : Visitor) (fuel : Nat) (path : Path)
    (bounds : List GenericBound) (s : ErrorSet) : VisitResult :=
  match fuel with
  | 0 => .error .fuelExhausted
  | n+1 =>
    match bounds with
    | [] => .ok s
    | bound :: rest =>
      andThen
        (match bound with
         | .traitBound trait_ generic_params _ =>
           andThen (visitType v n path .traitBound trait_ s) fun s1 =>
           visitGenericParamDefs v n path generic_params s1
         | .outlives _ => .ok s) fun s2 =>
      visitGenericBounds v n path rest s2
termination_by fuel

/-- Embeds `Visitor::visit_generic_param_defs`. -/
def visitGenericParamDefs (v : Visitor) (fuel : Nat) (path : Path)
    (params : List GenericParamDef) (s : ErrorSet) : VisitResult :=
  match fuel with
  | 0 => .error .fuelExhausted
  | n+1 =>
    match params with
    | [] => .ok s
    | param :: rest =>
      andThen
        (match param.kind with
         | .type bounds default _ =>
           andThen (visitGenericBounds v n path bounds s) fun s1 =>
           (match default with
            | some typ => visitType v n path .genericDefaultBinding typ s1
            | none => .ok s1)
         | .const type_ _ => visitType v n path .constGeneric type_ s
         | .lifetime _ => .ok s) fun s2 =>
      visitGenericParamDefs v n path rest s2
termination_by fuel

/-- Embeds `Visitor::visit_generics`: parameters, then where-predicates. -/
def visitGenerics (v : Visitor) (fuel : Nat) (path : Path)
    (generics : Generics) (s : ErrorSet) : VisitResult :=
  match fuel with
  | 0 => .error .fuelExhausted
  | n+1 =>
    andThen (visitGenericParamDefs v n path generics.params s) fun s1 =>
    visitWherePredicates v n path generics.where_predicates s1

/-- Embeds the where-predicate loop of `visit_generics`. -/
def visitWherePredicates (v : Visitor) (fuel : Nat) (path : Path)
    (preds : List WherePredicate) (s : ErrorSet) : VisitResult :=
  match fuel with
  | 0 => .error .fuelExhausted
  | n+1 =>
    match preds with
    | [] => .ok s
    | pred :: rest =>
      andThen
        (match pred with
         | .boundPredicate type_ bounds generic_params =>
           andThen (visitType v n path .whereBound type_ s) fun s1 =>
           andThen (visitGenericBounds v n path bounds s1) fun s2 =>
           visitGenericParamDefs v n path generic_params s2
         | .regionPredicate _ bounds => visitGenericBounds v n path bounds s
         | .eqPredicate lhs _ => visitType v n path .whereBound lhs s) fun s3 =>
      visitWherePredicates v n path rest s3
termination_by fuel

/-- Embeds `Visitor::visit_variant`: a plain variant contributes nothing (and
does so before any recursion), a tuple variant walks its positional types, a
struct variant visits its named fields as items. -/
def visitVariant (v : Visitor) (fuel : Nat) (path : Path) (variant : Variant)
    (s : ErrorSet) : VisitResult :=
  match variant with
  | .plain => .ok s
  | .tuple types =>
    match fuel with
    | 0 => .error .fuelExhausted
    | n+1 => visitTypeList v n path .enumTupleEntry types s
  | .struct fields =>
    match fuel with
    | 0 => .error .fuelExhausted
    | n+1 => visitItemsDefault v n path fields s
termination_by fuel

end

/-- Embeds `Visitor::root`: the root item of the crate, a fatal fault if it is
absent from the index. -/
def rootItem (package : Crate) : Except Fatal Item :=
  match package.index.lookup package.root with
  | some item => .ok item
  | none => .error .rootNotFound

/-- Embeds `Visitor::new`: record the config, the root crate id and name, and
the two maps.  The `expect` on a nameless root is a fatal outcome here. -/
def Visitor.new (config : Config) (package : Crate) : Except Fatal Visitor :=
  match rootItem package with
  | .error e => .error e
  | .ok root =>
    match root.name with
    | none => .error .rootNameMissing
    | some name =>
      .ok ⟨config, root.crate_id, name, package.index, package.paths⟩

/-- Embeds the root-module search of `Visitor::visit_all`: the first module in
the index tagged `is_crate`. -/
def findRootModule (v : Visitor) : Option Module :=
  ((v.index.map Prod.snd).filterMap fun item =>
    match item.inner with
    | .module m => some m
    | _ => none).find? fun m => m.is_crate

/-- Number of modules in the index tagged `is_crate` (for stating how many
root candidates an input graph has). -/
def rootModuleCount (v : Visitor) : Nat :=
  (((v.index.map Prod.snd).filterMap fun item =>
    match item.inner with
    | .module m => some m
    | _ => none).filter fun m => m.is_crate).length

/-- Embeds the member loop of `Visitor::visit_all`: look each id of the root
module up and visit it with the default visibility check. -/
def visitAllItems (v : Visitor) (fuel : Nat) (rootPath : Path) :
    List Id → ErrorSet → VisitResult
  | [], s => .ok s
  | id :: rest, s =>
    andThen (v.item id) fun item =>
    andThen (visitItem v fuel rootPath item .default s) fun s1 =>
    visitAllItems v fuel rootPath rest s1

/-- Embeds `Visitor::visit_all`: find the root module (a fatal fault when no
module is tagged `is_crate`), then visit each of its members starting from an
empty error set, returning the final error set. -/
def visitAll (v : Visitor) (fuel : Nat) : VisitResult :=
  match findRootModule v with
  | none => .error .rootModuleNotFound
  | some rootModule =>
    visitAllItems v fuel (Path.new v.rootCrateName) rootModule.items []

/-- Modelled from the spec: a sort key realising the total order of
`ValidationError` values (the spec leaves the exact field priority open; this
key orders by name, then usage-location tag, then path, then span). -/
def ErrorLocation.key : ErrorLocation → String
  | .argumentNamed name => "argumentNamed:" ++ name
  | .assocType => "assocType"
  | .closureInput => "closureInput"
  | .closureOutput => "closureOutput"
  | .constGeneric => "constGeneric"
  | .constant => "constant"
  | .enumTupleEntry => "enumTupleEntry"
  | .genericArg => "genericArg"
  | .genericDefaultBinding => "genericDefaultBinding"
  | .implementedTrait => "implementedTrait"
  | .qualifiedSelfType => "qualifiedSelfType"
  | .qualifiedSelfTypeAsTrait => "qualifiedSelfTypeAsTrait"
  | .reExport => "reExport"
  | .returnValue => "returnValue"
  | .static => "static"
  | .structField => "structField"
  | .traitBound => "traitBound"
  | .typeDef => "typeDef"
  | .whereBound => "whereBound"

/-- Sort key of an optional span. -/
def spanKey : Option Span → String
  | none => ""
  | some sp =>
    sp.filename ++ ":" ++ toString sp.begin_.1 ++ ":" ++ toString sp.begin_.2
      ++ ":" ++ toString sp.end_.1 ++ ":" ++ toString sp.end_.2

/-- Sort key of a validation error. -/
def errKey (e : ValidationError) : String :=
  e.typeName ++ "|" ++ e.location.key ++ "|" ++ e.path ++ "|" ++ spanKey e.span

/-- The total order used to render the error set deterministically. -/
def errLeB (a b : ValidationError) : Bool :=
  decide (errKey a ≤ errKey b)

/-- The final report: the error set of `visit_all` rendered in the total order
of the errors (the ordered iteration of the source `BTreeSet`). -/
def visitAllOrdered (v : Visitor) (fuel : Nat) : VisitResult :=
  match visitAll v fuel with
  | .ok errs => .ok (errs.mergeSort errLeB)
  | .error e => .error e

/-! Concrete sample inputs used to exercise the theorems. -/

/-- A visitor over an empty crate, with a policy that allows nothing. -/
def emptyVisitor : Visitor :=
  { config := ⟨fun _ _ => false⟩, rootCrateId := 0, rootCrateName := "mylib",
    index := [], paths := [] }

/-- A visitor whose summary map resolves the external id `"1:0"` to
`ext::Widget`, with a policy that allows nothing. -/
def extVisitor : Visitor :=
  { config := ⟨fun _ _ => false⟩, rootCrateId := 0, rootCrateName := "mylib",
    index := [], paths := [("1:0", ⟨1, ["ext", "Widget"]⟩)] }

/-- A crate-private function item. -/
def samplePrivateItem : Item :=
  { id := "0:1", crate_id := 0, name := some "hidden", span := none,
    visibility := .crate,
    inner := .function ⟨.mk [] none false, ⟨[], []⟩⟩ }

/-- A path whose innermost component is an enum named `E`. -/
def enumPath : Path :=
  (Path.new "mylib").pushRaw .enum "E" none

/-- An enum-variant item whose own marker is crate-restricted. -/
def crateVisibleVariantItem : Item :=
  { id := "0:2", crate_id := 0, name := some "V", span := none,
    visibility := .crate, inner := .variant .plain }

/-- An enum-variant item with the default marker. -/
def defaultVariantItem : Item :=
  { id := "0:3", crate_id := 0, name := some "V", span := none,
    visibility := .default, inner := .variant .plain }

/-- A module item tagged as a crate root, with no members. -/
def rootModuleItem (id : Id) : Item :=
  { id := id, crate_id := 0, name := some "mylib", span := none,
    visibility := .public, inner := .module ⟨true, []⟩ }

/-- A visitor whose index holds two modules both tagged as the crate root. -/
def twoRootVisitor : Visitor :=
  { config := ⟨fun _ _ => false⟩, rootCrateId := 0, rootCrateName := "mylib",
    index := [("0:0", rootModuleItem "0:0"), ("0:1", rootModuleItem "0:1")],
    paths := [] }

/-- A public import item re-exporting the external id `"1:0"` as `Widget`. -/
def importExtItem : Item :=
  { id := "0:9", crate_id := 0, name := none, span := none,
    visibility := .public,
    inner := .importItem ⟨"ext::Widget", "Widget", some "1:0", false⟩ }

/-- A blanket implementation block whose body references the disallowed
external id `"1:0"` both as the implemented trait and through a member id that
is absent from the index. -/
def blanketImplItem : Item :=
  { id := "0:7", crate_id := 0, name := none, span := none,
    visibility := .default,
    inner := .impl
      ⟨⟨[], []⟩, some (.resolvedPath "ext::Widget" "1:0" none []), ["0:77"],
        some (.generic "T")⟩ }

/-- A foreign (extern) type item, an unstable construct. -/
def foreignItem : Item :=
  { id := "0:5", crate_id := 0, name := some "F", span := none,
    visibility := .public, inner := .foreignType }

/-- A macro definition item, one of the kinds the dispatch ignores. -/
def macroLikeItem : Item :=
  { id := "0:6", crate_id := 0, name := some "m", span := none,
    visibility := .public, inner := .macroItem "m! body" }

/-- A sample violation record. -/
def sampleError1 : ValidationError :=
  ⟨"ext::Widget", .reExport, "mylib::Widget", none⟩

/-- A second, distinct sample violation record. -/
def sampleError2 : ValidationError :=
  ⟨"ext::Gadget", .returnValue, "mylib::f", none⟩

/-! Theorems settling the claims. -/

/-- C5: an item visited under the default visibility mode that is not
effectively public is skipped immediately: the visit succeeds and the error
set is returned unchanged (so no violation about the item's internals can be
produced), for every fuel bound. -/
theorem visit_item_private_is_noop (v : Visitor) (fuel : Nat) (path : Path)
    (item : Item) (s : ErrorSet) (h : isPublic path item = false) :
    visitItem v fuel path item .default s = Except.ok s := by
  have hgate : (VisibilityCheck.default == VisibilityCheck.default &&
      !(isPublic path item)) = true := by rw [h]; decide
  unfold visitItem
  rw [if_pos hgate]

/-- Witness for C5: a crate-private function item is skipped with the error
set unchanged. -/
theorem visit_item_private_is_noop_witness :
    visitItem emptyVisitor 5 (Path.new "mylib") samplePrivateItem
      VisibilityCheck.default [] = Except.ok [] :=
  visit_item_private_is_noop emptyVisitor 5 (Path.new "mylib")
    samplePrivateItem [] (by decide)

/-- C7: error collection is idempotent and append-only: inserting the same
violation twice yields the same set as inserting it once, insertion never
removes entries, and the inserted violation is present afterwards. -/
theorem add_error_idempotent_append_only (e : ValidationError) (s : ErrorSet) :
    addError e (addError e s) = addError e s ∧
    (∀ x, x ∈ s → x ∈ addError e s) ∧
    e ∈ addError e s := by
  by_cases h : e ∈ s
  · simp [addError, h]
  · simp [addError, h]
    exact fun x hx => Or.inl hx

/-- Witness for C7: inserting a violation twice into a set holding another one
equals inserting it once, and the prior entry survives. -/
theorem add_error_idempotent_append_only_witness :
    addError sampleError1 (addError sampleError1 [sampleError2]) =
      addError sampleError1 [sampleError2] ∧
    sampleError2 ∈ addError sampleError1 [sampleError2] :=
  ⟨(add_error_idempotent_append_only sampleError1 [sampleError2]).1,
    (add_error_idempotent_append_only sampleError1 [sampleError2]).2.1
      sampleError2 (by decide)⟩

/-- Counterexample to C1 as stated: an enum variant sitting under an enum path
component but whose own marker is crate-restricted is not considered public,
so the inheritance is not independent of the item's own visibility marker. -/
theorem is_public_marker_counterexample :
    enumPath.lastType = some ComponentType.enum ∧
    crateVisibleVariantItem.inner = ItemEnum.variant Variant.plain ∧
    isPublic enumPath crateVisibleVariantItem = false :=
  ⟨by decide, rfl, by decide⟩

/-- C1 (amended): for an item whose own visibility marker is the default
marker, effective visibility is inherited from the enclosing container: an
enum variant under an enum component, a struct field under an enum-variant
component, and any item under a trait component are public.  (The inheritance
holds for the default marker — and trivially for a public marker — rather than
independently of the marker: a crate-restricted marker is never public.) -/
theorem is_public_inherits_from_container (path : Path) (item : Item)
    (hmarker : item.visibility = Visibility.default)
    (hcase :
      ((∃ variant, item.inner = ItemEnum.variant variant) ∧
        path.lastType = some ComponentType.enum) ∨
      ((∃ typ, item.inner = ItemEnum.structField typ) ∧
        path.lastType = some ComponentType.enumVariant) ∨
      path.lastType = some ComponentType.trait) :
    isPublic path item = true := by
  unfold isPublic
  rw [hmarker]
  rcases hcase with ⟨⟨variant, hv⟩, hl⟩ | ⟨⟨typ, ht⟩, hl⟩ | hl
  · rw [hv, hl]
  · rw [ht, hl]
  · rw [hl]
    cases hi : item.inner <;> rfl

/-- Witness for C1 (amended): a default-marker enum variant under an enum path
component is public. -/
theorem is_public_inherits_from_container_witness :
    isPublic enumPath defaultVariantItem = true :=
  is_public_inherits_from_container enumPath defaultVariantItem rfl
    (Or.inl ⟨⟨Variant.plain, rfl⟩, by decide⟩)

/-- Counterexample to C2 as stated: an index holding two root-tagged modules
does not make `visit_all` fail fatally; the traversal picks one root module
and completes normally. -/
theorem visit_all_two_roots_counterexample :
    rootModuleCount twoRootVisitor = 2 ∧
    visitAll twoRootVisitor 0 = Except.ok [] :=
  ⟨rfl, rfl⟩

/-- C2 (amended): with zero root-tagged modules `visit_all` fails fatally;
with at least one, it proceeds over the members of the first root-tagged
module in index order rather than failing. -/
theorem visit_all_root_module (v : Visitor) (fuel : Nat) :
    ((∀ item ∈ v.index.map Prod.snd, ∀ m, item.inner = ItemEnum.module m →
        m.is_crate = false) →
      visitAll v fuel = Except.error Fatal.rootModuleNotFound) ∧
    (∀ m, findRootModule v = some m →
      visitAll v fuel =
        visitAllItems v fuel (Path.new v.rootCrateName) m.items []) := by
  constructor
  · intro h
    have hnone : findRootModule v = none := by
      unfold findRootModule
      rw [List.find?_eq_none]
      intro m hm
      rw [List.mem_filterMap] at hm
      obtain ⟨item, hitem, hsome⟩ := hm
      cases hi : item.inner <;> rw [hi] at hsome <;> simp at hsome
      case module mm =>
        subst hsome
        have := h item hitem mm hi
        simp [this]
    unfold visitAll
    rw [hnone]
  · intro m hm
    unfold visitAll
    rw [hm]

/-- Witness for C2 (amended): a crate with no root-tagged module fails with
the root-module-not-found fault. -/
theorem visit_all_root_module_witness :
    visitAll emptyVisitor 3 = Except.error Fatal.rootModuleNotFound :=
  (visit_all_root_module emptyVisitor 3).1 (by simp [emptyVisitor])

/-- C3: the external-reference checker resolves the canonical name of the
referenced id: on success it records a violation exactly when the policy
disallows the name (carrying the resolved name, the usage tag, the rendered
path and the best-available span); on failure it accepts silently when the id
belongs to the root crate and aborts fatally otherwise. -/
theorem check_external_spec (v : Visitor) (path : Path) (what : ErrorLocation)
    (id : Id) (s : ErrorSet) :
    (∀ typeName, v.typeName id = some typeName →
      v.checkExternal path what id s =
        Except.ok (if v.config.allowsType v.rootCrateName typeName then s
          else addError (ValidationError.unapprovedExternalTypeRef typeName
            what path.render path.lastSpan) s)) ∧
    (v.typeName id = none → v.inRootCrate id = true →
      v.checkExternal path what id s = Except.ok s) ∧
    (v.typeName id = none → v.inRootCrate id = false →
      v.checkExternal path what id s = Except.error Fatal.brokenReference) := by
  refine ⟨?_, ?_, ?_⟩
  · intro typeName h
    unfold Visitor.checkExternal
    rw [h]
    cases hA : v.config.allowsType v.rootCrateName typeName <;> simp [hA]
  · intro h hr
    unfold Visitor.checkExternal
    rw [h]
    simp [hr]
  · intro h hr
    unfold Visitor.checkExternal
    rw [h]
    simp [hr]

/-- Witness for C3: a resolvable external reference disallowed by the policy
records exactly its violation. -/
theorem check_external_spec_witness :
    extVisitor.checkExternal (Path.new "mylib") ErrorLocation.reExport "1:0"
      [] =
      Except.ok [ValidationError.unapprovedExternalTypeRef "ext::Widget"
        ErrorLocation.reExport "mylib" none] := by
  have h := (check_external_spec extVisitor (Path.new "mylib")
    ErrorLocation.reExport "1:0" []).1 "ext::Widget" rfl
  rw [h]
  rfl

/-- C4: for an import item with a target identity that passes the visibility
gate: when the target is external, the visit is exactly the external check on
the target id, tagged as a re-export, at the path extended with a re-export
component; when the target is in the root crate and its visit under the
assume-public mode succeeds, the same external check runs on the state that
visit produced. -/
theorem visit_import_reexport (v : Visitor) (n : Nat) (path : Path)
    (item : Item) (imp : Import) (targetId : Id) (vc : VisibilityCheck)
    (s : ErrorSet)
    (hinner : item.inner = ItemEnum.importItem imp)
    (hid : imp.id = some targetId)
    (hvis : vc = VisibilityCheck.assumePublic ∨ isPublic path item = true) :
    (v.inRootCrate targetId = false →
      visitItem v (n+1) path item vc s =
        v.checkExternal (path.pushRaw .reExport imp.name item.span)
          .reExport targetId s) ∧
    (∀ target s1, v.inRootCrate targetId = true →
      v.item targetId = Except.ok target →
      visitItem v n path target .assumePublic s = Except.ok s1 →
      visitItem v (n+1) path item vc s =
        v.checkExternal (path.pushRaw .reExport imp.name item.span)
          .reExport targetId s1) := by
  have hgate : (vc == VisibilityCheck.default && !(isPublic path item))
      = false := by
    rcases hvis with h | h
    · subst h; rfl
    · rw [h]; simp
  constructor
  · intro hroot
    unfold visitItem
    simp [hgate, hinner, hid, hroot, andThen]
  · intro target s1 hroot hitem hvisit
    unfold visitItem
    simp [hgate, hinner, hid, hroot, hitem, hvisit, andThen]

/-- Witness for C4: a public import of a disallowed external id yields exactly
the re-export violation at the re-export path component. -/
theorem visit_import_reexport_witness :
    visitItem extVisitor (0+1) (Path.new "mylib") importExtItem
      VisibilityCheck.default [] =
      Except.ok [ValidationError.unapprovedExternalTypeRef "ext::Widget"
        ErrorLocation.reExport "mylib::Widget" none] := by
  have h := (visit_import_reexport extVisitor 0 (Path.new "mylib")
    importExtItem ⟨"ext::Widget", "Widget", some "1:0", false⟩ "1:0"
    VisibilityCheck.default [] rfl rfl (Or.inr rfl)).1 (by decide)
  rw [h]
  rfl

/-- C6: a blanket implementation block is skipped entirely — the visit
succeeds with the error set unchanged, for every fuel bound, without visiting
its generics, member items, or implemented-trait reference. -/
theorem visit_impl_blanket_skipped (v : Visitor) (fuel : Nat) (path : Path)
    (item : Item) (imp : Impl) (s : ErrorSet)
    (hinner : item.inner = ItemEnum.impl imp)
    (hblanket : imp.blanket_impl.isSome = true) :
    visitImpl v fuel path item s = Except.ok s := by
  unfold visitImpl
  simp [hinner, hblanket]

/-- Witness for C6: a blanket implementation whose body references a
disallowed external id and an unresolvable member id still contributes
nothing. -/
theorem visit_impl_blanket_skipped_witness :
    visitImpl extVisitor 5 (Path.new "mylib") blanketImplItem [] =
      Except.ok [] :=
  visit_impl_blanket_skipped extVisitor 5 (Path.new "mylib") blanketImplItem
    ⟨⟨[], []⟩, some (.resolvedPath "ext::Widget" "1:0" none []), ["0:77"],
      some (.generic "T")⟩ [] rfl rfl

/-- C9: visiting an item of an unsupported/unstable kind (foreign type, opaque
type alias, trait alias) that passes the visibility gate aborts with the
unstable-feature fatal fault, for every fuel bound. -/
theorem visit_item_unstable_feature_fatal (v : Visitor) (fuel : Nat)
    (path : Path) (item : Item) (vc : VisibilityCheck) (s : ErrorSet)
    (hvis : vc = VisibilityCheck.assumePublic ∨ isPublic path item = true) :
    (item.inner = ItemEnum.foreignType →
      visitItem v fuel path item vc s =
        Except.error (Fatal.unstableFeature "extern_types")) ∧
    (item.inner = ItemEnum.opaqueTy →
      visitItem v fuel path item vc s =
        Except.error (Fatal.unstableFeature "type_alias_impl_trait")) ∧
    (item.inner = ItemEnum.traitAlias →
      visitItem v fuel path item vc s =
        Except.error (Fatal.unstableFeature "trait_alias")) := by
  have hgate : (vc == VisibilityCheck.default && !(isPublic path item))
      = false := by
    rcases hvis with h | h
    · subst h; rfl
    · rw [h]; simp
  refine ⟨?_, ?_, ?_⟩ <;> intro h <;> unfold visitItem <;> simp [hgate, h]

/-- Witness for C9: a public foreign-type item aborts fatally even with no
fuel. -/
theorem visit_item_unstable_feature_fatal_witness :
    visitItem emptyVisitor 0 (Path.new "mylib") foreignItem
      VisibilityCheck.default [] =
      Except.error (Fatal.unstableFeature "extern_types") :=
  (visit_item_unstable_feature_fatal emptyVisitor 0 (Path.new "mylib")
    foreignItem VisibilityCheck.default [] (Or.inr rfl)).1 rfl

/-- C10: the item dispatch is a no-op on implementation blocks (and on
extern-crate, macro, primitive-type and procedural-macro items): it returns
successfully with the error set unchanged for every visibility mode and fuel
bound, so implementation blocks are never examined when encountered directly
as a module member (they are examined only through `visitImplsList`, reached
from the `impls` list of a struct, union, or enum). -/
theorem visit_item_inert_kinds_noop (v : Visitor) (fuel : Nat) (path : Path)
    (item : Item) (vc : VisibilityCheck) (s : ErrorSet)
    (h : (∃ name rename, item.inner = ItemEnum.externCrate name rename) ∨
      (∃ imp, item.inner = ItemEnum.impl imp) ∨
      (∃ body, item.inner = ItemEnum.macroItem body) ∨
      (∃ name, item.inner = ItemEnum.primitiveType name) ∨
      (∃ p, item.inner = ItemEnum.procMacroItem p)) :
    visitItem v fuel path item vc s = Except.ok s := by
  unfold visitItem
  rcases h with ⟨name, rename, h⟩ | ⟨imp, h⟩ | ⟨body, h⟩ | ⟨name, h⟩ | ⟨p, h⟩ <;>
    simp [h]

/-- Witness for C10: a public macro item visited directly is a no-op. -/
theorem visit_item_inert_kinds_noop_witness :
    visitItem emptyVisitor 0 (Path.new "mylib") macroLikeItem
      VisibilityCheck.default [] = Except.ok [] :=
  visit_item_inert_kinds_noop emptyVisitor 0 (Path.new "mylib") macroLikeItem
    VisibilityCheck.default [] (Or.inr (Or.inr (Or.inl ⟨"m! body", rfl⟩)))

/-- The rendering order on violations is transitive. -/
theorem errLeB_trans (a b c : ValidationError) (hab : errLeB a b = true)
    (hbc : errLeB b c = true) : errLeB a c = true := by
  simp only [errLeB, decide_eq_true_eq] at *
  exact le_trans hab hbc

/-- The rendering order on violations is total. -/
theorem errLeB_total (a b : ValidationError) :
    (errLeB a b || errLeB b a) = true := by
  simp only [errLeB]
  rcases le_total (errKey a) (errKey b) with h | h <;> simp [h]

/-- C8: the traversal is deterministic and its final report is ordered: for a
fixed (graph, policy) pair two runs yield identical output, and any produced
output is sorted by the errors' total order and is a permutation of the
computed error set. -/
theorem traversal_deterministic_ordered (v w : Visitor) (fuel : Nat)
    (h : v = w) :
    visitAllOrdered v fuel = visitAllOrdered w fuel ∧
    ∀ output, visitAllOrdered v fuel = Except.ok output →
      output.Pairwise (fun a b => errLeB a b = true) ∧
      ∀ errs, visitAll v fuel = Except.ok errs → output.Perm errs := by
  subst h
  refine ⟨rfl, ?_⟩
  intro output hout
  unfold visitAllOrdered at hout
  cases hall : visitAll v fuel with
  | error e =>
    rw [hall] at hout
    cases hout
  | ok errs =>
    rw [hall] at hout
    injection hout with hsort
    constructor
    · rw [← hsort]
      exact List.sorted_mergeSort errLeB_trans errLeB_total errs
    · intro errs2 herrs2
      injection herrs2 with he
      subst he
      rw [← hsort]
      exact List.mergeSort_perm errs errLeB

/-- Witness for C8: the run on the two-root crate is self-identical and its
(empty) output is sorted. -/
theorem traversal_deterministic_ordered_witness :
    visitAllOrdered twoRootVisitor 0 = visitAllOrdered twoRootVisitor 0 ∧
    List.Pairwise (fun a b => errLeB a b = true)
      ([] : List ValidationError) := by
  have hok : visitAllOrdered twoRootVisitor 0 = Except.ok [] := by
    unfold visitAllOrdered
    rw [show visitAll twoRootVisitor 0 = Except.ok [] from rfl]
    simp
  exact ⟨(traversal_deterministic_ordered twoRootVisitor twoRootVisitor
      0 rfl).1,
    ((traversal_deterministic_ordered twoRootVisitor twoRootVisitor
      0 rfl).2 [] hok).1⟩

end CheckExternalTypes
